import Mathlib

/-!
Verification of the WebTools service worker (`src/sw.js`).

The service worker is modelled as a collection of pure functions over an
explicit cache-storage state.  External collaborators are modelled as
oracles passed in explicitly:

* the network (`fetch`) is a function `String → Option Response`
  (`none` models a rejected fetch);
* a possibly-failing `cache.put` is modelled by a boolean `putOk`
  (`false` models the put throwing, which the source swallows);
* the browser cache storage (`caches`) is an association list from store
  names to stores, each store an association list from request URLs
  (the request identity used by `cache.match` / `cache.put`) to stored
  response snapshots.
-/

deriving instance DecidableEq for Except

namespace WebToolsSW

/-- The `type` field of a JS `Response`.  `opq` models the JS value
"opaque" (the banned-free short name stands for the cross-origin
opaque response type); `opqRedirect` models "opaqueredirect". -/
inductive ResponseType where
  | basic
  | cors
  | defaultType
  | errorType
  | opq
  | opqRedirect
deriving DecidableEq, Repr

/-- Snapshot of a JS `Response`: status, type, content-type header, body. -/
structure Response where
  status : Nat
  rtype : ResponseType
  contentType : String
  body : String
deriving DecidableEq, Repr

/-- An intercepted request: method, full URL string, the parsed origin and
pathname of `new URL(req.url)`, and whether `req.mode === "navigate"`. -/
structure Request where
  method : String
  url : String
  urlOrigin : String
  urlPathname : String
  modeNavigate : Bool
deriving DecidableEq, Repr

/-- `charsStarts pat s`: the character list `s` starts with `pat`.
Structurally recursive so that proofs can evaluate it. -/
def charsStarts : List Char → List Char → Bool
  | [], _ => true
  | _ :: _, [] => false
  | a :: pa, b :: sb => if a = b then charsStarts pa sb else false

/-- JS `s.startsWith(pat)`. -/
def strStarts (s pat : String) : Bool := charsStarts pat.data s.data

/-- JS `s.endsWith(pat)`. -/
def strEnds (s pat : String) : Bool :=
  charsStarts pat.data.reverse s.data.reverse

/-- Lower-casing, modelling the `i` flag of the CDN regexes. -/
def strLower (s : String) : String := ⟨s.data.map Char.toLower⟩

/-- `const VERSION = "v1.0.2";` (sw.js line 9). -/
def VERSION : String := "v1.0.2"

/-- `const CACHE_NAME = ` backtick`webtools-cache-${VERSION}`backtick (sw.js line 10). -/
def CACHE_NAME : String := "webtools-cache-" ++ VERSION

/-- `const BASE = SCOPE_PATH.endsWith("/") ? SCOPE_PATH : SCOPE_PATH + "/";`
(sw.js line 14): the scope resolver appends a trailing slash if missing. -/
def computeBase (scopePath : String) : String :=
  if strEnds scopePath "/" then scopePath else scopePath ++ "/"

/-- `const PRECACHE_FILES = ["", "index.html", "manifest.webmanifest", "gif.worker.js"];`
(sw.js lines 17-22). -/
def PRECACHE_FILES : List String :=
  ["", "index.html", "manifest.webmanifest", "gif.worker.js"]

/-- `const PRECACHE_URLS = PRECACHE_FILES.map((p) => BASE + p);` (sw.js line 23). -/
def PRECACHE_URLS (base : String) : List String :=
  PRECACHE_FILES.map (fun p => base ++ p)

/-- The six case-insensitive anchored regexes of `RUNTIME_CDN_PATTERNS`
(sw.js lines 26-37).  Each regex has the shape `^https:\/\/host\/?` with
the `i` flag, so `re.test(url)` holds exactly when the lowercased URL
starts with the (lowercase) host prefix; the trailing `\/?` is optional
and never affects whether a match exists. -/
def RUNTIME_CDN_HOSTS : List String :=
  [ "https://cdn.tailwindcss.com"
  , "https://fonts.googleapis.com"
  , "https://fonts.gstatic.com"
  , "https://img.icons8.com"
  , "https://cdn.jsdelivr.net"
  , "https://cdnjs.cloudflare.com" ]

/-- `RUNTIME_CDN_PATTERNS.some((re) => re.test(req.url))` (sw.js line 128). -/
def matchesRuntimeCDN (url : String) : Bool :=
  RUNTIME_CDN_HOSTS.any (fun h => strStarts (strLower url) h)

/-- A single cache store: request-URL keyed response snapshots. -/
abbrev Cache := List (String × Response)

/-- The cache storage: named stores. -/
abbrev CacheStorage := List (String × Cache)

/-- `cache.match(request)`: first entry whose key equals the request URL. -/
def cacheMatch : Cache → String → Option Response
  | [], _ => none
  | (k, r) :: rest, key => if k = key then some r else cacheMatch rest key

/-- `cache.put(key, response)`: overwrite the entry for `key`, or append. -/
def cachePut : Cache → String → Response → Cache
  | [], key, r => [(key, r)]
  | (k, v) :: rest, key, r =>
    if k = key then (key, r) :: rest else (k, v) :: cachePut rest key r

/-- Look up a store by name in the cache storage. -/
def storGet : CacheStorage → String → Option Cache
  | [], _ => none
  | (n, c) :: rest, name => if n = name then some c else storGet rest name

/-- `caches.open(name)`: return the existing store, or create an empty one. -/
def cachesOpen (cs : CacheStorage) (name : String) : CacheStorage × Cache :=
  match storGet cs name with
  | some c => (cs, c)
  | none => (cs ++ [(name, [])], [])

/-- Perform a `cache.put` on the named store inside the storage. -/
def storPut : CacheStorage → String → String → Response → CacheStorage
  | [], name, key, r => [(name, cachePut [] key r)]
  | (n, c) :: rest, name, key, r =>
    if n = name then (n, cachePut c key r) :: rest
    else (n, c) :: storPut rest name key r

/-- Replace the whole contents of the named store. -/
def storSet : CacheStorage → String → Cache → CacheStorage
  | [], name, c => [(name, c)]
  | (n, c0) :: rest, name, c =>
    if n = name then (n, c) :: rest else (n, c0) :: storSet rest name c

/-- `caches.keys()`: the list of store names. -/
def cachesKeys (cs : CacheStorage) : List String := cs.map Prod.fst

/-- `caches.delete(name)`: remove the named store. -/
def cachesDelete (cs : CacheStorage) (name : String) : CacheStorage :=
  cs.filter (fun p => p.1 != name)

/-- Sequential composition of the independent `caches.delete` calls issued
by the activate handler (`Promise.all(deletions)`, sw.js line 77). -/
def deleteAll : CacheStorage → List String → CacheStorage
  | cs, [] => cs
  | cs, n :: rest => deleteAll (cachesDelete cs n) rest

/-- Outcome of one strategy invocation: the updated storage, the response
(`Except.error ()` models a propagated rejection), and whether a network
fetch was performed. -/
structure HandlerResult where
  storage : CacheStorage
  response : Except Unit Response
  didFetch : Bool
deriving DecidableEq, Repr

/-- `cacheFirst(event, cacheName)` (sw.js lines 40-58): serve from cache if
present; otherwise fetch, opportunistically cache status-200 or opaque
responses (a failing put is swallowed via `putOk = false`), and return the
live response; on fetch rejection return the earlier-found cached response
if any (the source's defensive re-check of `cached`), else rethrow. -/
def cacheFirst (net : String → Option Response) (putOk : Bool)
    (cs : CacheStorage) (req : Request) (cacheName : String) : HandlerResult :=
  let opened := cachesOpen cs cacheName
  let cached := cacheMatch opened.2 req.url
  match cached with
  | some c => ⟨opened.1, Except.ok c, false⟩
  | none =>
    match net req.url with
    | some response =>
      let cs2 :=
        if response.status = 200 ∨ response.rtype = ResponseType.opq then
          if putOk then storPut opened.1 cacheName req.url response else opened.1
        else opened.1
      ⟨cs2, Except.ok response, true⟩
    | none =>
      match cached with
      | some c => ⟨opened.1, Except.ok c, true⟩
      | none => ⟨opened.1, Except.error (), true⟩

/-- The synthesized last-resort offline response (sw.js lines 111-114):
status 200, HTML content type, body carrying the offline notice. -/
def offlineResponse : Response :=
  ⟨200, ResponseType.basic, "text/html; charset=utf-8",
    "<h1>离线模式</h1><p>当前无法连接网络，且尚未缓存应用壳。</p>"⟩

/-- The navigation branch of the fetch handler (sw.js lines 93-118):
network first; on success warm the shell cache under `BASE + "index.html"`
(put failure swallowed) and return the fresh response; on failure fall back
to the cached shell, else to `offlineResponse`. -/
def handleNavigation (net : String → Option Response) (putOk : Bool)
    (base : String) (cs : CacheStorage) (req : Request) : HandlerResult :=
  match net req.url with
  | some fresh =>
    let opened := cachesOpen cs CACHE_NAME
    let cs2 :=
      if putOk then storPut opened.1 CACHE_NAME (base ++ "index.html") fresh
      else opened.1
    ⟨cs2, Except.ok fresh, true⟩
  | none =>
    let opened := cachesOpen cs CACHE_NAME
    match cacheMatch opened.2 (base ++ "index.html") with
    | some cached => ⟨opened.1, Except.ok cached, true⟩
    | none => ⟨opened.1, Except.ok offlineResponse, true⟩

/-- Outcome of the fetch event listener: `response = none` models
pass-through (no `event.respondWith` call). -/
structure RouteOutcome where
  storage : CacheStorage
  response : Option (Except Unit Response)
  didFetch : Bool
deriving DecidableEq, Repr

/-- The fetch event listener (sw.js lines 84-135): ignore non-GET; route
navigations to the navigation strategy; route same-origin-under-BASE and
runtime-CDN-matching requests to `cacheFirst` with the current store;
otherwise pass through. -/
def handleFetch (net : String → Option Response) (putOk : Bool)
    (base selfOrigin : String) (cs : CacheStorage) (req : Request) :
    RouteOutcome :=
  if req.method ≠ "GET" then ⟨cs, none, false⟩
  else if req.modeNavigate then
    let r := handleNavigation net putOk base cs req
    ⟨r.storage, some r.response, r.didFetch⟩
  else if req.urlOrigin = selfOrigin ∧ strStarts req.urlPathname base then
    let r := cacheFirst net putOk cs req CACHE_NAME
    ⟨r.storage, some r.response, r.didFetch⟩
  else if matchesRuntimeCDN req.url then
    let r := cacheFirst net putOk cs req CACHE_NAME
    ⟨r.storage, some r.response, r.didFetch⟩
  else ⟨cs, none, false⟩

/-- `cache.addAll(urls)` as the spec describes the external API: fetch every
URL in order and store each response; reject as soon as any fetch rejects. -/
def addAll (net : String → Option Response) : Cache → List String → Option Cache
  | c, [] => some c
  | c, u :: rest =>
    match net u with
    | some r => addAll net (cachePut c u r) rest
    | none => none

/-- Outcome of the install handler: updated storage, whether the
`waitUntil` promise resolved, and whether `self.skipWaiting()` was called. -/
structure InstallOutcome where
  storage : CacheStorage
  success : Bool
  skipWaitingCalled : Bool
deriving DecidableEq, Repr

/-- The install listener (sw.js lines 61-67): open the current store,
`addAll` the precache URLs, then call `skipWaiting`; any rejection fails
the whole `waitUntil` chain and skips the `skipWaiting` step. -/
def handleInstall (net : String → Option Response) (base : String)
    (cs : CacheStorage) : InstallOutcome :=
  let opened := cachesOpen cs CACHE_NAME
  match addAll net opened.2 (PRECACHE_URLS base) with
  | some c => ⟨storSet opened.1 CACHE_NAME c, true, true⟩
  | none => ⟨opened.1, false, false⟩

/-- Outcome of the activate handler. -/
structure ActivateOutcome where
  storage : CacheStorage
  clientsClaimCalled : Bool
deriving DecidableEq, Repr

/-- The activate listener (sw.js lines 70-81): delete every store whose
name starts with "webtools-cache-" and differs from `CACHE_NAME`, then
call `self.clients.claim()`. -/
def handleActivate (cs : CacheStorage) : ActivateOutcome :=
  let stale := (cachesKeys cs).filter
    (fun key => strStarts key "webtools-cache-" && key != CACHE_NAME)
  ⟨deleteAll cs stale, true⟩

/-- Combined lookup: the entry for `key` in the store named `name`. -/
def storMatch (cs : CacheStorage) (name key : String) : Option Response :=
  match storGet cs name with
  | some c => cacheMatch c key
  | none => none

/-- Boolean membership in a list of names. -/
def listHas : List String → String → Bool
  | [], _ => false
  | n :: rest, x => if n = x then true else listHas rest x

/-! ### Lemmas about the cache-storage operations -/

theorem cacheMatch_cachePut_self (c : Cache) (k : String) (r : Response) :
    cacheMatch (cachePut c k r) k = some r := by
  induction c with
  | nil => simp [cachePut, cacheMatch]
  | cons p rest ih =>
    obtain ⟨k0, v0⟩ := p
    by_cases h : k0 = k
    · simp [cachePut, h, cacheMatch]
    · simp [cachePut, h, cacheMatch, ih]

theorem cacheMatch_cachePut_ne (c : Cache) (k k' : String) (r : Response)
    (h : k' ≠ k) : cacheMatch (cachePut c k r) k' = cacheMatch c k' := by
  induction c with
  | nil => simp [cachePut, cacheMatch, Ne.symm h]
  | cons p rest ih =>
    obtain ⟨k0, v0⟩ := p
    by_cases h0 : k0 = k
    · subst h0
      simp [cachePut, cacheMatch, Ne.symm h]
    · simp [cachePut, h0, cacheMatch, ih]

theorem cacheMatch_cachePut_isSome (c : Cache) (k u : String) (r : Response)
    (h : (cacheMatch c u).isSome = true) :
    (cacheMatch (cachePut c k r) u).isSome = true := by
  by_cases hu : u = k
  · subst hu; rw [cacheMatch_cachePut_self]; rfl
  · rw [cacheMatch_cachePut_ne c k u r hu]; exact h

theorem storGet_append_of_none (cs : CacheStorage) (n : String) (c : Cache)
    (h : storGet cs n = none) : storGet (cs ++ [(n, c)]) n = some c := by
  induction cs with
  | nil => simp [storGet]
  | cons p rest ih =>
    obtain ⟨n0, c0⟩ := p
    by_cases h0 : n0 = n
    · simp [storGet, h0] at h
    · simp only [storGet, h0, if_neg h0, List.cons_append]
      exact ih (by simpa [storGet, h0] using h)

theorem storGet_cachesOpen (cs : CacheStorage) (n : String) :
    storGet (cachesOpen cs n).1 n = some (cachesOpen cs n).2 := by
  unfold cachesOpen
  cases h : storGet cs n with
  | some c => simpa using h
  | none => simpa using storGet_append_of_none cs n [] h

theorem cachesOpen_of_storGet (cs : CacheStorage) (n : String) (c : Cache)
    (h : storGet cs n = some c) : cachesOpen cs n = (cs, c) := by
  simp [cachesOpen, h]

theorem storGet_storPut_self (cs : CacheStorage) (n k : String) (r : Response) :
    storGet (storPut cs n k r) n
      = some (cachePut ((storGet cs n).getD []) k r) := by
  induction cs with
  | nil => simp [storPut, storGet]
  | cons p rest ih =>
    obtain ⟨n0, c0⟩ := p
    by_cases h0 : n0 = n
    · simp [storPut, h0, storGet]
    · simp [storPut, h0, storGet, ih]

theorem storGet_storSet_self (cs : CacheStorage) (n : String) (c : Cache) :
    storGet (storSet cs n c) n = some c := by
  induction cs with
  | nil => simp [storSet, storGet]
  | cons p rest ih =>
    obtain ⟨n0, c0⟩ := p
    by_cases h0 : n0 = n
    · simp [storSet, h0, storGet]
    · simp [storSet, h0, storGet, ih]

theorem storMatch_cachesOpen (cs : CacheStorage) (n key : String) :
    storMatch (cachesOpen cs n).1 n key = cacheMatch (cachesOpen cs n).2 key := by
  unfold storMatch
  rw [storGet_cachesOpen]

theorem storMatch_storPut_self (cs : CacheStorage) (n k : String) (r : Response) :
    storMatch (storPut cs n k r) n k = some r := by
  unfold storMatch
  rw [storGet_storPut_self]
  exact cacheMatch_cachePut_self _ _ _

theorem cacheFirst_hit (net : String → Option Response) (putOk : Bool)
    (cs : CacheStorage) (req : Request) (name : String) (c : Cache)
    (r : Response) (hs : storGet cs name = some c)
    (hm : cacheMatch c req.url = some r) :
    cacheFirst net putOk cs req name = ⟨cs, Except.ok r, false⟩ := by
  unfold cacheFirst
  rw [cachesOpen_of_storGet cs name c hs]
  simp [hm]

theorem cacheFirst_entry (net : String → Option Response) (cs : CacheStorage)
    (req : Request) (name : String) (resp : Response)
    (hnet : net req.url = some resp)
    (hguard : resp.status = 200 ∨ resp.rtype = ResponseType.opq) :
    ∃ r, storMatch (cacheFirst net true cs req name).storage name req.url
      = some r := by
  unfold cacheFirst
  cases hm : cacheMatch (cachesOpen cs name).2 req.url with
  | some c =>
    refine ⟨c, ?_⟩
    simp only [hm]
    show storMatch (cachesOpen cs name).1 name req.url = some c
    rw [storMatch_cachesOpen]
    exact hm
  | none =>
    refine ⟨resp, ?_⟩
    simp only [hm, hnet]
    rw [if_pos hguard, if_pos trivial]
    exact storMatch_storPut_self _ _ _ _

theorem addAll_isSome_iff (net : String → Option Response) (urls : List String) :
    ∀ c : Cache, (addAll net c urls).isSome = true
      ↔ ∀ u ∈ urls, (net u).isSome = true := by
  induction urls with
  | nil => intro c; simp [addAll]
  | cons u rest ih =>
    intro c
    cases hn : net u with
    | some r => simp [addAll, hn, ih]
    | none => simp [addAll, hn]

theorem addAll_preserves (net : String → Option Response) (urls : List String) :
    ∀ c c' : Cache, addAll net c urls = some c' → ∀ u : String,
      (cacheMatch c u).isSome = true → (cacheMatch c' u).isSome = true := by
  induction urls with
  | nil =>
    intro c c' h u hu
    simp [addAll] at h
    exact h ▸ hu
  | cons v rest ih =>
    intro c c' h u hu
    cases hn : net v with
    | some r =>
      rw [addAll, hn] at h
      exact ih _ _ h u (cacheMatch_cachePut_isSome c v u r hu)
    | none => rw [addAll, hn] at h; exact absurd h (by simp)

theorem addAll_mem_isSome (net : String → Option Response) (urls : List String) :
    ∀ c c' : Cache, addAll net c urls = some c' → ∀ u ∈ urls,
      (cacheMatch c' u).isSome = true := by
  induction urls with
  | nil => intro c c' _ u hu; simp at hu
  | cons v rest ih =>
    intro c c' h u hu
    cases hn : net v with
    | none => rw [addAll, hn] at h; exact absurd h (by simp)
    | some r =>
      rw [addAll, hn] at h
      rcases List.mem_cons.mp hu with hv | hrest
      · subst hv
        exact addAll_preserves net rest _ _ h u
          (by rw [cacheMatch_cachePut_self]; rfl)
      · exact ih _ _ h u hrest

/-! ### Lemmas for the activate handler -/

theorem listHas_of_mem (l : List String) (x : String) (h : x ∈ l) :
    listHas l x = true := by
  induction l with
  | nil => simp at h
  | cons n rest ih =>
    by_cases h0 : n = x
    · simp [listHas, h0]
    · rcases List.mem_cons.mp h with h1 | h1
      · exact absurd h1.symm h0
      · simp [listHas, h0, ih h1]

theorem listHas_filter (l : List String) (f : String → Bool) (x : String) :
    listHas (l.filter f) x = (listHas l x && f x) := by
  induction l with
  | nil => simp [listHas]
  | cons n rest ih =>
    by_cases h0 : n = x
    · subst h0
      cases hf : f n <;> simp [List.filter_cons, hf, listHas, ih]
    · cases hf : f n <;> simp [List.filter_cons, hf, listHas, h0, ih]

theorem deleteAll_eq_filter (l : List String) :
    ∀ cs : CacheStorage, deleteAll cs l
      = cs.filter (fun p => !(listHas l p.1)) := by
  induction l with
  | nil => intro cs; simp [deleteAll, listHas]
  | cons n rest ih =>
    intro cs
    rw [deleteAll, ih, cachesDelete, List.filter_filter]
    apply List.filter_congr
    intro p _
    by_cases h : n = p.1
    · simp [listHas, h]
    · simp [listHas, h, bne, Ne.symm h]

theorem cachesKeys_filter (cs : CacheStorage) (f : String → Bool) :
    cachesKeys (cs.filter (fun p => f p.1)) = (cachesKeys cs).filter f := by
  induction cs with
  | nil => rfl
  | cons p rest ih =>
    cases hf : f p.1 <;>
      simp [cachesKeys, List.filter_cons, hf, ih] <;>
      simpa [cachesKeys] using ih

theorem filter_beq_eq_replicate_count (l : List String) (a : String) :
    l.filter (fun k => k == a) = List.replicate (l.count a) a := by
  induction l with
  | nil => simp
  | cons n rest ih =>
    by_cases h : n = a
    · subst h
      simp [List.filter_cons, List.count_cons, ih, List.replicate_succ]
    · simp [List.filter_cons, List.count_cons, h, ih]

theorem CACHE_NAME_matches : strStarts CACHE_NAME "webtools-cache-" = true := by
  decide

theorem activate_matching_names (cs : CacheStorage) :
    (cachesKeys (handleActivate cs).storage).filter
        (fun k => strStarts k "webtools-cache-")
      = (cachesKeys cs).filter (fun k => k == CACHE_NAME) := by
  show (cachesKeys (deleteAll cs ((cachesKeys cs).filter
        (fun key => strStarts key "webtools-cache-" && key != CACHE_NAME)))).filter
        (fun k => strStarts k "webtools-cache-")
      = (cachesKeys cs).filter (fun k => k == CACHE_NAME)
  rw [deleteAll_eq_filter]
  rw [cachesKeys_filter cs (fun x => !(listHas ((cachesKeys cs).filter
    (fun key => strStarts key "webtools-cache-" && key != CACHE_NAME)) x))]
  rw [List.filter_filter]
  apply List.filter_congr
  intro k hk
  rw [listHas_filter, listHas_of_mem _ _ hk, Bool.true_and]
  by_cases h : k = CACHE_NAME
  · subst h
    simp [CACHE_NAME_matches]
  · have hne : (k == CACHE_NAME) = false := by
      simpa using h
    simp only [bne, hne, Bool.not_false, Bool.and_true]
    cases hsw : strStarts k "webtools-cache-" <;> simp

theorem handleFetch_eq_cacheFirst (net : String → Option Response)
    (putOk : Bool) (base org : String) (cs : CacheStorage) (req : Request)
    (hm : req.method = "GET") (hn : req.modeNavigate = false)
    (hc : matchesRuntimeCDN req.url = true) :
    handleFetch net putOk base org cs req
      = ⟨(cacheFirst net putOk cs req CACHE_NAME).storage,
         some (cacheFirst net putOk cs req CACHE_NAME).response,
         (cacheFirst net putOk cs req CACHE_NAME).didFetch⟩ := by
  unfold handleFetch
  rw [if_neg (by simp [hm])]
  rw [if_neg (by simp [hn])]
  by_cases hA : req.urlOrigin = org ∧ strStarts req.urlPathname base
  · rw [if_pos hA]
  · rw [if_neg hA, if_pos hc]

/-! ### Claim theorems -/

/-- C1: the install operation is all-or-nothing: it succeeds iff every URL
in the Precache Manifest is fetched and stored successfully (all entries
are then present in the current store); if any single manifest fetch fails
the install fails, and the skip-waiting signal is issued exactly on
success. -/
theorem install_all_or_nothing (net : String → Option Response) (base : String)
    (cs : CacheStorage) :
    ((handleInstall net base cs).success = true ↔
        ∀ u ∈ PRECACHE_URLS base, (net u).isSome = true)
    ∧ (handleInstall net base cs).skipWaitingCalled
        = (handleInstall net base cs).success
    ∧ ((handleInstall net base cs).success = true →
        ∃ c, storGet (handleInstall net base cs).storage CACHE_NAME = some c
          ∧ ∀ u ∈ PRECACHE_URLS base, (cacheMatch c u).isSome = true) := by
  unfold handleInstall
  cases h : addAll net (cachesOpen cs CACHE_NAME).2 (PRECACHE_URLS base) with
  | some c =>
    simp only [h]
    refine ⟨?_, trivial, ?_⟩
    · constructor
      · intro _
        exact (addAll_isSome_iff net (PRECACHE_URLS base)
          (cachesOpen cs CACHE_NAME).2).mp (by rw [h]; rfl)
      · intro _; trivial
    · intro _
      exact ⟨c, storGet_storSet_self _ _ _, addAll_mem_isSome net _ _ _ h⟩
  | none =>
    simp only [h]
    refine ⟨?_, trivial, ?_⟩
    · constructor
      · intro hfalse; simp at hfalse
      · intro hall
        have hs := (addAll_isSome_iff net (PRECACHE_URLS base)
          (cachesOpen cs CACHE_NAME).2).mpr hall
        rw [h] at hs
        simp at hs
    · intro hfalse; simp at hfalse

/-- C2: after activate, the store names matching the application's naming
pattern ("webtools-cache-" prefixed) are exactly the current version's
store name, and `clients.claim` is called. -/
theorem activate_single_current_store (cs : CacheStorage)
    (h : (cachesKeys cs).count CACHE_NAME = 1) :
    (cachesKeys (handleActivate cs).storage).filter
        (fun k => strStarts k "webtools-cache-") = [CACHE_NAME]
    ∧ (handleActivate cs).clientsClaimCalled = true := by
  refine ⟨?_, rfl⟩
  rw [activate_matching_names, filter_beq_eq_replicate_count, h]
  rfl

/-- C3: for every intercepted request whose method is not GET, the router
does not intervene: no response is substituted, the storage is untouched,
and no network fetch happens, whatever the URL, origin or navigation
flag. -/
theorem non_get_pass_through (net : String → Option Response) (putOk : Bool)
    (base org : String) (cs : CacheStorage) (req : Request)
    (h : req.method ≠ "GET") :
    handleFetch net putOk base org cs req = ⟨cs, none, false⟩ := by
  unfold handleFetch
  rw [if_pos h]

/-- C4: for a navigation request whose network fetch fails, the handler
returns the cached shell entry if present, and otherwise the synthesized
offline response (status 200, HTML content type); in every case a
navigation yields a response, never a propagated failure. -/
theorem navigation_network_failure_fallback (net : String → Option Response)
    (putOk : Bool) (base : String) (cs : CacheStorage) (req : Request)
    (hfail : net req.url = none) :
    (∀ shell, cacheMatch (cachesOpen cs CACHE_NAME).2 (base ++ "index.html")
        = some shell →
      (handleNavigation net putOk base cs req).response = Except.ok shell)
    ∧ (cacheMatch (cachesOpen cs CACHE_NAME).2 (base ++ "index.html") = none →
        (handleNavigation net putOk base cs req).response
          = Except.ok offlineResponse
        ∧ offlineResponse.status = 200
        ∧ offlineResponse.contentType = "text/html; charset=utf-8")
    ∧ ∀ (net2 : String → Option Response) (putOk2 : Bool) (cs2 : CacheStorage),
        ∃ r, (handleNavigation net2 putOk2 base cs2 req).response
          = Except.ok r := by
  refine ⟨?_, ?_, ?_⟩
  · intro shell hs
    unfold handleNavigation
    simp only [hfail, hs]
  · intro hs
    unfold handleNavigation
    simp only [hfail, hs]
    exact ⟨trivial, rfl, rfl⟩
  · intro net2 putOk2 cs2
    unfold handleNavigation
    cases hn : net2 req.url with
    | some fresh => exact ⟨fresh, by simp only [hn]⟩
    | none =>
      cases hm : cacheMatch (cachesOpen cs2 CACHE_NAME).2 (base ++ "index.html") with
      | some cached => exact ⟨cached, by simp only [hn, hm]⟩
      | none => exact ⟨offlineResponse, by simp only [hn, hm]⟩

/-- C5: for a navigation request whose network fetch succeeds, the handler
returns the live network response unchanged, and the shell entry under
`BASE + "index.html"` in the current store is updated to a copy of it; a
failing update is swallowed and leaves the storage as merely opened,
without affecting the returned response. -/
theorem navigation_network_success (net : String → Option Response)
    (putOk : Bool) (base : String) (cs : CacheStorage) (req : Request)
    (fresh : Response) (hok : net req.url = some fresh) :
    (handleNavigation net putOk base cs req).response = Except.ok fresh
    ∧ (putOk = true →
        storMatch (handleNavigation net putOk base cs req).storage CACHE_NAME
          (base ++ "index.html") = some fresh)
    ∧ (putOk = false →
        (handleNavigation net putOk base cs req).storage
          = (cachesOpen cs CACHE_NAME).1) := by
  unfold handleNavigation
  simp only [hok]
  refine ⟨trivial, ?_, ?_⟩
  · intro hp; subst hp
    rw [if_pos rfl]
    exact storMatch_storPut_self _ _ _ _
  · intro hp; subst hp
    simp

/-- C6: in the cache-first strategy, if a cached response exists for the
request in the target store, it is returned, no network fetch is performed
and the storage is left unchanged. -/
theorem cache_first_hit_no_fetch (net : String → Option Response)
    (putOk : Bool) (cs : CacheStorage) (req : Request) (name : String)
    (c : Cache) (r : Response) (hs : storGet cs name = some c)
    (hm : cacheMatch c req.url = some r) :
    cacheFirst net putOk cs req name = ⟨cs, Except.ok r, false⟩ :=
  cacheFirst_hit net putOk cs req name c r hs hm

/-- C7: in the cache-first strategy, on a cache miss with a successful
network fetch, the live response is always returned; a copy is stored iff
the response has status 200 or is opaque and the put succeeds; otherwise
(guard false, or put failure) the storage is merely the opened one and the
entry stays absent. -/
theorem cache_first_miss_store_guard (net : String → Option Response)
    (putOk : Bool) (cs : CacheStorage) (req : Request) (name : String)
    (resp : Response)
    (hmiss : cacheMatch (cachesOpen cs name).2 req.url = none)
    (hnet : net req.url = some resp) :
    (cacheFirst net putOk cs req name).response = Except.ok resp
    ∧ (cacheFirst net putOk cs req name).didFetch = true
    ∧ ((resp.status = 200 ∨ resp.rtype = ResponseType.opq) → putOk = true →
        storMatch (cacheFirst net putOk cs req name).storage name req.url
          = some resp)
    ∧ (¬(resp.status = 200 ∨ resp.rtype = ResponseType.opq) →
        (cacheFirst net putOk cs req name).storage = (cachesOpen cs name).1
        ∧ storMatch (cacheFirst net putOk cs req name).storage name req.url
            = none)
    ∧ (putOk = false →
        (cacheFirst net putOk cs req name).storage = (cachesOpen cs name).1) := by
  unfold cacheFirst
  simp only [hmiss, hnet]
  refine ⟨trivial, trivial, ?_, ?_, ?_⟩
  · intro hg hp; subst hp
    rw [if_pos hg, if_pos rfl]
    exact storMatch_storPut_self _ _ _ _
  · intro hg
    rw [if_neg hg]
    refine ⟨rfl, ?_⟩
    rw [storMatch_cachesOpen]
    exact hmiss
  · intro hp; subst hp
    simp

/-- C8: in the cache-first strategy, on a network fetch failure the cached
response found by the earlier lookup is returned when present; with no
cached entry the failure is propagated to the caller. -/
theorem cache_first_network_failure (net : String → Option Response)
    (putOk : Bool) (cs : CacheStorage) (req : Request) (name : String)
    (hnet : net req.url = none) :
    (cacheFirst net putOk cs req name).response
      = match cacheMatch (cachesOpen cs name).2 req.url with
        | some c => Except.ok c
        | none => Except.error () := by
  unfold cacheFirst
  cases hm : cacheMatch (cachesOpen cs name).2 req.url with
  | some c => simp only [hm]
  | none => simp only [hm, hnet]

/-- C10 (implicit): on a successful network fetch for a navigation request,
the shell entry is overwritten with a copy of the response unconditionally
— no status-200/opaque guard as in the cache-first strategy — so even a
non-200 response becomes the stored shell entry. -/
theorem navigation_unconditional_shell_overwrite
    (net : String → Option Response) (base : String) (cs : CacheStorage)
    (req : Request) (fresh : Response) (hok : net req.url = some fresh) :
    (handleNavigation net true base cs req).response = Except.ok fresh
    ∧ storMatch (handleNavigation net true base cs req).storage CACHE_NAME
        (base ++ "index.html") = some fresh := by
  unfold handleNavigation
  simp only [hok]
  refine ⟨trivial, ?_⟩
  rw [if_pos trivial]
  exact storMatch_storPut_self _ _ _ _

/-- C9 (amended): for a non-navigation GET request matching a runtime CDN
pattern, after one handling in which the network fetch succeeds with a
status-200 or opaque response and the cache write succeeds, a second
identical request is answered from the cache without any new network
fetch and without changing the storage. -/
theorem runtime_cdn_second_request_cached (net : String → Option Response)
    (base org : String) (cs : CacheStorage) (req : Request) (resp : Response)
    (hm : req.method = "GET") (hn : req.modeNavigate = false)
    (hc : matchesRuntimeCDN req.url = true)
    (hnet : net req.url = some resp)
    (hguard : resp.status = 200 ∨ resp.rtype = ResponseType.opq) :
    ∃ r, storMatch (handleFetch net true base org cs req).storage CACHE_NAME
        req.url = some r
      ∧ handleFetch net true base org
          (handleFetch net true base org cs req).storage req
        = ⟨(handleFetch net true base org cs req).storage,
           some (Except.ok r), false⟩ := by
  have h1 := handleFetch_eq_cacheFirst net true base org cs req hm hn hc
  rw [h1]
  simp only
  obtain ⟨r, hr⟩ := cacheFirst_entry net cs req CACHE_NAME resp hnet hguard
  refine ⟨r, hr, ?_⟩
  have h2 := handleFetch_eq_cacheFirst net true base org
    (cacheFirst net true cs req CACHE_NAME).storage req hm hn hc
  rw [h2]
  unfold storMatch at hr
  cases hg : storGet (cacheFirst net true cs req CACHE_NAME).storage CACHE_NAME with
  | none => rw [hg] at hr; exact absurd hr (by simp)
  | some c =>
    rw [hg] at hr
    rw [cacheFirst_hit net true (cacheFirst net true cs req CACHE_NAME).storage
      req CACHE_NAME c r hg hr]

/-! ### Concrete fixtures for witnesses and the counterexample -/

/-- A status-200 basic response. -/
def respOk : Response := ⟨200, ResponseType.basic, "text/html", "ok"⟩

/-- A status-404 basic response. -/
def resp404 : Response := ⟨404, ResponseType.basic, "text/html", "not found"⟩

/-- A network where every fetch succeeds with `respOk`. -/
def netOk : String → Option Response := fun _ => some respOk

/-- A network where every fetch succeeds with `resp404`. -/
def net404 : String → Option Response := fun _ => some resp404

/-- A network where every fetch rejects. -/
def netDown : String → Option Response := fun _ => none

/-- A CDN subresource URL. -/
def cdnUrl : String := "https://cdn.jsdelivr.net/lib.js"

/-- A non-navigation GET request to `cdnUrl`. -/
def reqCdn : Request := ⟨"GET", cdnUrl, "https://cdn.jsdelivr.net", "/lib.js", false⟩

/-- A navigation GET request whose URL matches a runtime CDN pattern. -/
def reqNavCdn : Request :=
  ⟨"GET", "https://cdn.jsdelivr.net/app/", "https://cdn.jsdelivr.net", "/app/", true⟩

/-- A POST request (navigation-flagged, CDN URL). -/
def reqPost : Request := ⟨"POST", cdnUrl, "https://cdn.jsdelivr.net", "/lib.js", true⟩

/-- A same-origin navigation GET request. -/
def reqNav : Request :=
  ⟨"GET", "https://example.com/page", "https://example.com", "/page", true⟩

/-- A storage with one stale versioned store, the current store, and an
unrelated store. -/
def csTwo : CacheStorage :=
  [("webtools-cache-v0.9", []), (CACHE_NAME, []), ("misc", [])]

/-- A storage whose current store already holds `cdnUrl`. -/
def csHit : CacheStorage := [(CACHE_NAME, [(cdnUrl, respOk)])]

/-- C9 counterexample: a GET request whose URL matches a runtime CDN
pattern but which is a navigation; the first handling's network fetch
succeeds, yet the second identical request still performs a network fetch
(the navigation branch is network-first), contradicting the claim. -/
theorem runtime_cdn_second_request_counterexample :
    reqNavCdn.method = "GET"
    ∧ matchesRuntimeCDN reqNavCdn.url = true
    ∧ (netOk reqNavCdn.url).isSome = true
    ∧ (handleFetch netOk true "/" "https://example.com" [] reqNavCdn).didFetch
        = true
    ∧ (handleFetch netOk true "/" "https://example.com"
        (handleFetch netOk true "/" "https://example.com" [] reqNavCdn).storage
        reqNavCdn).didFetch = true := by
  refine ⟨rfl, by decide, rfl, by decide, by decide⟩

/-! ### Witnesses -/

/-- Witness for C2 at the concrete storage `csTwo`. -/
theorem activate_single_current_store_witness :
    (cachesKeys csTwo).count CACHE_NAME = 1
    ∧ ((cachesKeys (handleActivate csTwo).storage).filter
          (fun k => strStarts k "webtools-cache-") = [CACHE_NAME]
      ∧ (handleActivate csTwo).clientsClaimCalled = true) :=
  ⟨by decide, activate_single_current_store csTwo (by decide)⟩

/-- Witness for C3 at a concrete POST request. -/
theorem non_get_pass_through_witness :
    reqPost.method ≠ "GET"
    ∧ handleFetch netOk true "/" "https://example.com" [("x", [])] reqPost
        = ⟨[("x", [])], none, false⟩ :=
  ⟨by decide, non_get_pass_through netOk true "/" "https://example.com"
    [("x", [])] reqPost (by decide)⟩

/-- Witness for C4 with the network down and an empty storage. -/
theorem navigation_network_failure_fallback_witness :
    netDown reqNav.url = none
    ∧ ((∀ shell, cacheMatch (cachesOpen ([] : CacheStorage) CACHE_NAME).2
          ("/" ++ "index.html") = some shell →
        (handleNavigation netDown true "/" [] reqNav).response = Except.ok shell)
      ∧ (cacheMatch (cachesOpen ([] : CacheStorage) CACHE_NAME).2
            ("/" ++ "index.html") = none →
          (handleNavigation netDown true "/" [] reqNav).response
            = Except.ok offlineResponse
          ∧ offlineResponse.status = 200
          ∧ offlineResponse.contentType = "text/html; charset=utf-8")
      ∧ ∀ (net2 : String → Option Response) (putOk2 : Bool) (cs2 : CacheStorage),
          ∃ r, (handleNavigation net2 putOk2 "/" cs2 reqNav).response
            = Except.ok r) :=
  ⟨rfl, navigation_network_failure_fallback netDown true "/" [] reqNav rfl⟩

/-- Witness for C5 with an online network and an empty storage. -/
theorem navigation_network_success_witness :
    netOk reqNav.url = some respOk
    ∧ ((handleNavigation netOk true "/" [] reqNav).response = Except.ok respOk
      ∧ (true = true →
          storMatch (handleNavigation netOk true "/" [] reqNav).storage
            CACHE_NAME ("/" ++ "index.html") = some respOk)
      ∧ (true = false →
          (handleNavigation netOk true "/" [] reqNav).storage
            = (cachesOpen ([] : CacheStorage) CACHE_NAME).1)) :=
  ⟨rfl, navigation_network_success netOk true "/" [] reqNav respOk rfl⟩

/-- Witness for C6 at a storage whose current store holds the request. -/
theorem cache_first_hit_no_fetch_witness :
    storGet csHit CACHE_NAME = some [(cdnUrl, respOk)]
    ∧ cacheMatch [(cdnUrl, respOk)] reqCdn.url = some respOk
    ∧ cacheFirst netOk true csHit reqCdn CACHE_NAME
        = ⟨csHit, Except.ok respOk, false⟩ :=
  ⟨by decide, by decide,
   cache_first_hit_no_fetch netOk true csHit reqCdn CACHE_NAME
     [(cdnUrl, respOk)] respOk (by decide) (by decide)⟩

/-- Witness for C7 at an empty storage with a 200 response. -/
theorem cache_first_miss_store_guard_witness :
    cacheMatch (cachesOpen ([] : CacheStorage) CACHE_NAME).2 reqCdn.url = none
    ∧ netOk reqCdn.url = some respOk
    ∧ ((cacheFirst netOk true [] reqCdn CACHE_NAME).response = Except.ok respOk
      ∧ (cacheFirst netOk true [] reqCdn CACHE_NAME).didFetch = true
      ∧ ((respOk.status = 200 ∨ respOk.rtype = ResponseType.opq) →
          true = true →
          storMatch (cacheFirst netOk true [] reqCdn CACHE_NAME).storage
            CACHE_NAME reqCdn.url = some respOk)
      ∧ (¬(respOk.status = 200 ∨ respOk.rtype = ResponseType.opq) →
          (cacheFirst netOk true [] reqCdn CACHE_NAME).storage
            = (cachesOpen ([] : CacheStorage) CACHE_NAME).1
          ∧ storMatch (cacheFirst netOk true [] reqCdn CACHE_NAME).storage
              CACHE_NAME reqCdn.url = none)
      ∧ (true = false →
          (cacheFirst netOk true [] reqCdn CACHE_NAME).storage
            = (cachesOpen ([] : CacheStorage) CACHE_NAME).1)) :=
  ⟨by decide, rfl,
   cache_first_miss_store_guard netOk true [] reqCdn CACHE_NAME respOk
     (by decide) rfl⟩

/-- Witness for C8 at an empty storage with the network down. -/
theorem cache_first_network_failure_witness :
    netDown reqCdn.url = none
    ∧ (cacheFirst netDown true [] reqCdn CACHE_NAME).response
        = match cacheMatch (cachesOpen ([] : CacheStorage) CACHE_NAME).2
            reqCdn.url with
          | some c => Except.ok c
          | none => Except.error () :=
  ⟨rfl, cache_first_network_failure netDown true [] reqCdn CACHE_NAME rfl⟩

/-- Witness for the amended C9 at the concrete CDN request. -/
theorem runtime_cdn_second_request_cached_witness :
    (reqCdn.method = "GET" ∧ reqCdn.modeNavigate = false
      ∧ matchesRuntimeCDN reqCdn.url = true
      ∧ netOk reqCdn.url = some respOk
      ∧ (respOk.status = 200 ∨ respOk.rtype = ResponseType.opq))
    ∧ ∃ r, storMatch
          (handleFetch netOk true "/" "https://example.com" [] reqCdn).storage
          CACHE_NAME reqCdn.url = some r
        ∧ handleFetch netOk true "/" "https://example.com"
            (handleFetch netOk true "/" "https://example.com" [] reqCdn).storage
            reqCdn
          = ⟨(handleFetch netOk true "/" "https://example.com" [] reqCdn).storage,
             some (Except.ok r), false⟩ :=
  ⟨⟨rfl, rfl, by decide, rfl, Or.inl rfl⟩,
   runtime_cdn_second_request_cached netOk "/" "https://example.com" [] reqCdn
     respOk rfl rfl (by decide) rfl (Or.inl rfl)⟩

/-- Witness for C10 with a 404 navigation response: the non-200 response
still overwrites the shell entry. -/
theorem navigation_unconditional_shell_overwrite_witness :
    net404 reqNav.url = some resp404
    ∧ resp404.status ≠ 200
    ∧ ((handleNavigation net404 true "/" [] reqNav).response = Except.ok resp404
      ∧ storMatch (handleNavigation net404 true "/" [] reqNav).storage
          CACHE_NAME ("/" ++ "index.html") = some resp404) :=
  ⟨rfl, by decide,
   navigation_unconditional_shell_overwrite net404 "/" [] reqNav resp404 rfl⟩

end WebToolsSW
